import Mathlib

/-!
Verification of the dragon-fruit monitoring app's harvest forecasting and
yield-accounting core, shallowly embedded from the TypeScript source.

Calendar dates: the app stores dates as "YYYY-MM-DD" strings and compares
them with string equality / lexicographic order, which on that format agrees
with chronological order.  We embed a date as its day number (an `Int`), so
string equality becomes `Int` equality and lexicographic `>=` becomes `≤`.
-/

/-- `BloomEntry` from `src/types/farm.ts`: one flowering event at one
location.  The date is embedded as a day number. -/
structure BloomEntry where
  id : String
  date : Int
  location : String
  variety : String
  count : Int
  maturityPeriodDays : Int
  imageUri : Option String := none
  notes : Option String := none
  createdAt : String := ""
deriving DecidableEq, Repr

/-- `AbortionEntry` from `src/types/farm.ts`: a partial loss of flowers from
one bloom, referenced by `bloomEntryId`. -/
structure AbortionEntry where
  id : String
  abortionDate : Int
  bloomEntryId : String
  abortedCount : Int
  notes : Option String := none
  imageUri : Option String := none
  createdAt : String := ""
deriving DecidableEq, Repr

/-- `HarvestEntry` from `src/types/farm.ts`: fruit collected from one bloom,
referenced by `bloomEntryId`. -/
structure HarvestEntry where
  id : String
  harvestDate : Int
  bloomEntryId : String
  harvestedCount : Int
  notes : Option String := none
  imageUri : Option String := none
  createdAt : String := ""
deriving DecidableEq, Repr

/-- `HarvestForecast` from `src/types/farm.ts`: the derived per-bloom view
built by `loadHarvestData` in `src/app/(tabs)/harvest.tsx`. -/
structure HarvestForecast where
  id : String
  bloomEntry : BloomEntry
  expectedHarvestDate : Int
  expectedCount : Int
  totalAborted : Int
  remainingCount : Int
  isReadyToday : Bool
  daysUntilHarvest : Int
deriving DecidableEq, Repr

/-- Modelled from the spec: `src/utils/dateUtils.ts` is not present under
`src/` (only imported); §4.3 defines expected date by calendar addition
`bloomDate + maturityPeriodDays`.  On day numbers this is `+`. -/
def addDays (d : Int) (n : Int) : Int := d + n

/-- Modelled from the spec: `formatDate` renders a date as "YYYY-MM-DD";
on day numbers it is the identity. -/
def formatDate (d : Int) : Int := d

/-- Modelled from the spec: `daysBetween` is §4.3's `calendarDayDifference`,
the (non-negative) number of calendar days between two dates. -/
def daysBetween (a : Int) (b : Int) : Int := ((b - a).natAbs : Int)

/-- Sum of `abortedCount` over abortions referencing `bloomId`, as computed
by the `filter`/`reduce` chains in `harvest.tsx`, `index.tsx`,
`abortion.tsx`. -/
def totalAborted (abortionEntries : List AbortionEntry) (bloomId : String) : Int :=
  (abortionEntries.filter (fun a => a.bloomEntryId == bloomId)).foldl
    (fun sum a => sum + a.abortedCount) 0

/-- Sum of `harvestedCount` over harvests referencing `bloomId`
(`harvest.tsx` lines 45-47). -/
def totalHarvested (harvestEntries : List HarvestEntry) (bloomId : String) : Int :=
  (harvestEntries.filter (fun h => h.bloomEntryId == bloomId)).foldl
    (fun sum h => sum + h.harvestedCount) 0

/-- The body of the `map` in `loadHarvestData` (`harvest.tsx` lines 39-63):
builds one `HarvestForecast` from a bloom against the full abortion and
harvest collections and the current date. -/
def mkForecast (abortionEntries : List AbortionEntry) (harvestEntries : List HarvestEntry)
    (today : Int) (bloom : BloomEntry) : HarvestForecast :=
  let expectedHarvestDate := formatDate (addDays bloom.date bloom.maturityPeriodDays)
  let tA := totalAborted abortionEntries bloom.id
  let tH := totalHarvested harvestEntries bloom.id
  let remainingCount := bloom.count - tA - tH
  let daysUntilHarvest := daysBetween today expectedHarvestDate
  let isReadyToday : Bool := expectedHarvestDate == today
  { id := bloom.id
    bloomEntry := bloom
    expectedHarvestDate := expectedHarvestDate
    expectedCount := bloom.count
    totalAborted := tA
    remainingCount := remainingCount
    isReadyToday := isReadyToday
    daysUntilHarvest := if today ≤ expectedHarvestDate then daysUntilHarvest else -daysUntilHarvest }

/-- The sort comparator of `loadHarvestData` (`harvest.tsx` lines 65-70):
ready-today entries first, then by `daysUntilHarvest`. -/
def forecastCmp (a b : HarvestForecast) : Int :=
  if a.isReadyToday && !b.isReadyToday then -1
  else if !a.isReadyToday && b.isReadyToday then 1
  else a.daysUntilHarvest - b.daysUntilHarvest

/-- `Array.prototype.sort` with a consistent comparator produces the stable
order in which `a` may precede `b` exactly when `cmp a b ≤ 0`. -/
def forecastLE (a b : HarvestForecast) : Bool := decide (forecastCmp a b ≤ 0)

/-- The forecast pipeline of `loadHarvestData` (`harvest.tsx` lines 38-70):
map blooms to forecasts, keep those with `remainingCount > 0`, then sort. -/
def loadHarvestData (bloomEntries : List BloomEntry) (abortionEntries : List AbortionEntry)
    (harvestEntries : List HarvestEntry) (today : Int) : List HarvestForecast :=
  ((bloomEntries.map (mkForecast abortionEntries harvestEntries today)).filter
    (fun f => decide (0 < f.remainingCount))).mergeSort forecastLE

theorem forecastLE_trans (a b c : HarvestForecast) (hab : forecastLE a b = true)
    (hbc : forecastLE b c = true) : forecastLE a c = true := by
  simp only [forecastLE, forecastCmp, decide_eq_true_eq] at *
  cases ha : a.isReadyToday <;> cases hb : b.isReadyToday <;> cases hc : c.isReadyToday <;>
    simp [ha, hb, hc] at * <;> omega

theorem forecastLE_total (a b : HarvestForecast) :
    (forecastLE a b || forecastLE b a) = true := by
  simp only [forecastLE, forecastCmp, Bool.or_eq_true, decide_eq_true_eq]
  cases ha : a.isReadyToday <;> cases hb : b.isReadyToday <;> simp [ha, hb] <;> omega

/-- Example bloom for the C1 theorems: count 5, over-harvested by 7. -/
def bloomC1 : BloomEntry :=
  { id := "b1", date := 0, location := "N11A", variety := "Red", count := 5,
    maturityPeriodDays := 26 }

/-- Example over-harvest entry for the C1 theorems. -/
def harvestC1 : HarvestEntry :=
  { id := "h1", harvestDate := 26, bloomEntryId := "b1", harvestedCount := 7 }

/-- C1 counterexample: on over-harvest input the remaining count computed in
`loadHarvestData` is `5 - 0 - 7 = -2`, not `max 0 (5 - 0 - 7) = 0`: the code
never clamps. -/
theorem forecast_remaining_not_clamped :
    (mkForecast [] [harvestC1] 26 bloomC1).remainingCount ≠
      max 0 (bloomC1.count - totalAborted [] bloomC1.id - totalHarvested [harvestC1] bloomC1.id) := by
  decide

/-- C1 (amended): the per-bloom remaining count computed by the forecast
pipeline equals `count - Σaborted - Σharvested` with no clamping (so it is
negative on over-abortion/over-harvest input); whenever the aborted and
harvested totals do not exceed the bloom count it coincides with
`max 0 (count - Σaborted - Σharvested)` and hence is non-negative. -/
theorem forecast_remaining_formula (b : BloomEntry) (abortionEntries : List AbortionEntry)
    (harvestEntries : List HarvestEntry) (today : Int) :
    (mkForecast abortionEntries harvestEntries today b).remainingCount
        = b.count - totalAborted abortionEntries b.id - totalHarvested harvestEntries b.id
    ∧ (totalAborted abortionEntries b.id + totalHarvested harvestEntries b.id ≤ b.count →
        (mkForecast abortionEntries harvestEntries today b).remainingCount
          = max 0 (b.count - totalAborted abortionEntries b.id - totalHarvested harvestEntries b.id)) := by
  refine ⟨rfl, fun h => ?_⟩
  have hr : (mkForecast abortionEntries harvestEntries today b).remainingCount
      = b.count - totalAborted abortionEntries b.id - totalHarvested harvestEntries b.id := rfl
  omega

/-- C1 witness: the amended formula instantiated on a well-formed history
(count 5, 2 aborted, 3 harvested, remaining 0). -/
theorem forecast_remaining_formula_witness :
    (mkForecast [{ id := "a1", abortionDate := 3, bloomEntryId := "b1", abortedCount := 2 }]
        [{ id := "h1", harvestDate := 26, bloomEntryId := "b1", harvestedCount := 3 }] 26 bloomC1).remainingCount
      = max 0 (bloomC1.count
          - totalAborted [{ id := "a1", abortionDate := 3, bloomEntryId := "b1", abortedCount := 2 }] bloomC1.id
          - totalHarvested [{ id := "h1", harvestDate := 26, bloomEntryId := "b1", harvestedCount := 3 }] bloomC1.id) :=
  (forecast_remaining_formula bloomC1
    [{ id := "a1", abortionDate := 3, bloomEntryId := "b1", abortedCount := 2 }]
    [{ id := "h1", harvestDate := 26, bloomEntryId := "b1", harvestedCount := 3 }] 26).2 (by decide)

/-- C6: the forecast list produced by `loadHarvestData` is totally ordered by
the documented policy: ready-today entries precede all others, and entries
with equal `isReadyToday` are in ascending order of `daysUntilHarvest`. -/
theorem harvest_forecasts_sorted (bloomEntries : List BloomEntry)
    (abortionEntries : List AbortionEntry) (harvestEntries : List HarvestEntry) (today : Int) :
    List.Pairwise (fun a b : HarvestForecast =>
      (b.isReadyToday = true → a.isReadyToday = true) ∧
      (a.isReadyToday = b.isReadyToday → a.daysUntilHarvest ≤ b.daysUntilHarvest))
      (loadHarvestData bloomEntries abortionEntries harvestEntries today) := by
  have h := @List.sorted_mergeSort _ forecastLE forecastLE_trans forecastLE_total
    ((bloomEntries.map (mkForecast abortionEntries harvestEntries today)).filter
      (fun f => decide (0 < f.remainingCount)))
  refine List.Pairwise.imp ?_ h
  intro a b hab
  simp only [forecastLE, forecastCmp, decide_eq_true_eq] at hab
  cases ha : a.isReadyToday <;> cases hb : b.isReadyToday <;>
    simp [ha, hb] at hab ⊢ <;> omega

/-- C7: a bloom whose clamped remaining count is zero (in particular any
fully aborted/harvested or over-consumed bloom) never appears in the
forecast list produced by `loadHarvestData`: every listed forecast is for a
different bloom. -/
theorem zero_remaining_excluded_from_forecasts (bloomEntries : List BloomEntry)
    (abortionEntries : List AbortionEntry) (harvestEntries : List HarvestEntry)
    (today : Int) (b : BloomEntry)
    (h0 : max 0 (b.count - totalAborted abortionEntries b.id - totalHarvested harvestEntries b.id) = 0) :
    (loadHarvestData bloomEntries abortionEntries harvestEntries today).all
      (fun f => !(f.bloomEntry == b)) = true := by
  rw [List.all_eq_true]
  intro f hf
  rw [Bool.not_eq_true', beq_eq_false_iff_ne]
  intro heq
  rw [loadHarvestData, List.mem_mergeSort] at hf
  obtain ⟨hf', hpos⟩ := List.mem_filter.mp hf
  obtain ⟨b', _, rfl⟩ := List.mem_map.mp hf'
  have hb' : (mkForecast abortionEntries harvestEntries today b').bloomEntry = b' := rfl
  rw [hb'] at heq
  subst heq
  have hr : (mkForecast abortionEntries harvestEntries today b').remainingCount
      = b'.count - totalAborted abortionEntries b'.id - totalHarvested harvestEntries b'.id := rfl
  simp only [decide_eq_true_eq] at hpos
  omega

/-- C7 witness: a bloom with count 5 and 5 harvested (remaining 0) is absent
from the forecast list built over it. -/
theorem zero_remaining_excluded_witness :
    (loadHarvestData [bloomC1] []
        [{ id := "h2", harvestDate := 26, bloomEntryId := "b1", harvestedCount := 5 }] 26).all
      (fun f => !(f.bloomEntry == bloomC1)) = true :=
  zero_remaining_excluded_from_forecasts [bloomC1] []
    [{ id := "h2", harvestDate := 26, bloomEntryId := "b1", harvestedCount := 5 }] 26 bloomC1
    (by decide)

/-- The per-bloom view built by `loadBloomEntries` in
`src/app/(tabs)/abortion.tsx` (lines 38-48): each bloom is paired with
`remainingCount = count - totalAborted` — harvest entries are not loaded on
that page — and blooms with no remaining flowers are dropped. -/
structure AbortionPageBloom where
  entry : BloomEntry
  remainingCount : Int
deriving DecidableEq, Repr

/-- `loadBloomEntries` from `abortion.tsx` lines 31-54. -/
def loadBloomEntries (blooms : List BloomEntry) (abortions : List AbortionEntry) :
    List AbortionPageBloom :=
  (blooms.map (fun bloom =>
    { entry := bloom, remainingCount := bloom.count - totalAborted abortions bloom.id })).filter
    (fun v => decide (0 < v.remainingCount))

/-- Outcome of an abortion-entry submission: a validation alert (nothing
persisted) or a saved entry. -/
inductive AbortionSaveResult where
  | validationError : String → AbortionSaveResult
  | saved : AbortionEntry → AbortionSaveResult
deriving DecidableEq, Repr

/-- `handleSave` from `abortion.tsx` lines 76-128: `none` plays the role of
`parseInt` returning `NaN`. -/
def handleSave (selectedBloom : AbortionPageBloom) (abortedCount : Option Int)
    (abortionDate : Int) (newId : String) (notes imageUri : Option String)
    (createdAt : String) : AbortionSaveResult :=
  match abortedCount with
  | none => .validationError "Please enter a valid abortion count"
  | some countNum =>
    if countNum ≤ 0 then .validationError "Please enter a valid abortion count"
    else if selectedBloom.remainingCount < countNum then
      .validationError "Cannot abort more than remaining flowers"
    else .saved { id := newId, abortionDate := abortionDate,
                  bloomEntryId := selectedBloom.entry.id, abortedCount := countNum,
                  notes := notes, imageUri := imageUri, createdAt := createdAt }

/-- Outcome of a harvest-entry submission. -/
inductive HarvestSaveResult where
  | validationError : String → HarvestSaveResult
  | saved : HarvestEntry → HarvestSaveResult
deriving DecidableEq, Repr

/-- `handleSaveHarvest` from `harvest.tsx` lines 112-168: the count is
validated against the selected bloom's forecast if one is found in the
loaded forecast list (and not validated at all otherwise, mirroring the
`if (forecast && ...)` guard). -/
def handleSaveHarvest (harvestForecasts : List HarvestForecast) (selectedBloom : BloomEntry)
    (harvestedCount : Option Int) (harvestDate : Int) (newId : String)
    (notes imageUri : Option String) (createdAt : String) : HarvestSaveResult :=
  match harvestedCount with
  | none => .validationError "Please enter a valid harvest count"
  | some countNum =>
    if countNum ≤ 0 then .validationError "Please enter a valid harvest count"
    else
      match harvestForecasts.find? (fun f => f.id == selectedBloom.id) with
      | some forecast =>
        if forecast.remainingCount < countNum then
          .validationError "Cannot harvest more than remaining fruits"
        else .saved { id := newId, harvestDate := harvestDate,
                      bloomEntryId := selectedBloom.id, harvestedCount := countNum,
                      notes := notes, imageUri := imageUri, createdAt := createdAt }
      | none => .saved { id := newId, harvestDate := harvestDate,
                         bloomEntryId := selectedBloom.id, harvestedCount := countNum,
                         notes := notes, imageUri := imageUri, createdAt := createdAt }

/-- Example bloom for the C3 theorems: count 10, of which 7 were already
harvested, so the true remaining is 3. -/
def bloomC3 : BloomEntry :=
  { id := "b3", date := 0, location := "N11A", variety := "Red", count := 10,
    maturityPeriodDays := 26 }

/-- Harvest of 7 fruits from `bloomC3`. -/
def harvestC3 : HarvestEntry :=
  { id := "h3", harvestDate := 26, bloomEntryId := "b3", harvestedCount := 7 }

/-- C3 counterexample: the abortion page computes remaining without harvest
entries, so with 7 of 10 already harvested (true remaining 3) an abortion of
9 passes validation and is saved. -/
theorem abortion_overcount_accepted :
    ({ entry := bloomC3, remainingCount := 10 } : AbortionPageBloom) ∈ loadBloomEntries [bloomC3] []
    ∧ handleSave { entry := bloomC3, remainingCount := 10 } (some 9) 30 "a9" none none ""
        = .saved { id := "a9", abortionDate := 30, bloomEntryId := "b3", abortedCount := 9,
                   notes := none, imageUri := none, createdAt := "" }
    ∧ bloomC3.count - totalAborted [] bloomC3.id - totalHarvested [harvestC3] bloomC3.id < 9 := by
  decide

/-- C3 (amended): a submission is persisted only when the parsed count is a
positive number not exceeding the remaining count that the respective
workflow computes — for harvests, the forecast's
`count - Σaborted - Σharvested` (when the bloom's forecast is found); for
abortions, only `count - Σaborted`, harvest entries being ignored by that
page, so an abortion exceeding the true remaining can still be accepted. -/
theorem entry_workflows_validate :
    (∀ (v : AbortionPageBloom) (c : Option Int) (d : Int) (i : String) (nt iu : Option String)
        (ca : String) (e : AbortionEntry),
      handleSave v c d i nt iu ca = .saved e →
        ∃ n, c = some n ∧ 0 < n ∧ n ≤ v.remainingCount ∧ e.abortedCount = n) ∧
    (∀ (fs : List HarvestForecast) (sb : BloomEntry) (c : Option Int) (d : Int) (i : String)
        (nt iu : Option String) (ca : String) (e : HarvestEntry),
      handleSaveHarvest fs sb c d i nt iu ca = .saved e →
        ∃ n, c = some n ∧ 0 < n ∧ e.harvestedCount = n ∧
          ∀ f, fs.find? (fun g => g.id == sb.id) = some f → n ≤ f.remainingCount) := by
  constructor
  · intro v c d i nt iu ca e h
    match c with
    | none => simp [handleSave] at h
    | some n =>
      refine ⟨n, rfl, ?_⟩
      by_cases h1 : n ≤ 0
      · simp [handleSave, h1] at h
      · by_cases h2 : v.remainingCount < n
        · simp [handleSave, h1, h2] at h
        · simp [handleSave, h1, h2] at h
          refine ⟨by omega, by omega, ?_⟩
          rw [← h]
  · intro fs sb c d i nt iu ca e h
    match c with
    | none => simp [handleSaveHarvest] at h
    | some n =>
      refine ⟨n, rfl, ?_⟩
      by_cases h1 : n ≤ 0
      · simp [handleSaveHarvest, h1] at h
      · match hfind : fs.find? (fun g => g.id == sb.id) with
        | none =>
          simp [handleSaveHarvest, h1, hfind] at h
          exact ⟨by omega, by rw [← h], fun f hf => by simp [hfind] at hf⟩
        | some forecast =>
          by_cases h2 : forecast.remainingCount < n
          · simp [handleSaveHarvest, h1, hfind, h2] at h
          · simp [handleSaveHarvest, h1, hfind, h2] at h
            refine ⟨by omega, by rw [← h], fun f hf => ?_⟩
            rw [hfind] at hf
            cases hf
            omega

/-- C3 witness: the validation facts extracted from a concrete accepted
abortion submission (count 2 against remaining 3). -/
theorem entry_workflows_validate_witness :
    ∃ n, (some 2 : Option Int) = some n ∧ 0 < n ∧
      n ≤ ({ entry := bloomC3, remainingCount := 3 } : AbortionPageBloom).remainingCount ∧
      ({ id := "a2", abortionDate := 30, bloomEntryId := "b3", abortedCount := 2,
         notes := none, imageUri := none, createdAt := "" } : AbortionEntry).abortedCount = n :=
  entry_workflows_validate.1 { entry := bloomC3, remainingCount := 3 } (some 2) 30 "a2"
    none none "" _ (by decide)

/-- `totalActiveBlooms` as computed by `loadDashboardData` in
`src/app/(tabs)/index.tsx` lines 67-72: for each bloom it adds
`count - totalAborted`; harvest entries are never subtracted and no
clamping is applied. -/
def totalActiveBlooms (bloomEntries : List BloomEntry) (abortionEntries : List AbortionEntry) : Int :=
  bloomEntries.foldl
    (fun sum bloom => sum + (bloom.count - totalAborted abortionEntries bloom.id)) 0

/-- Follows the spec's words (§4.5): `totalActiveBlooms = sum of remaining(b)
over all blooms`, with `remaining(b) = max(0, count - Σaborted - Σharvested)`
taken from the Yield Ledger (§4.2). -/
def specTotalActiveBlooms (bloomEntries : List BloomEntry) (abortionEntries : List AbortionEntry)
    (harvestEntries : List HarvestEntry) : Int :=
  (bloomEntries.map (fun b =>
    max 0 (b.count - totalAborted abortionEntries b.id - totalHarvested harvestEntries b.id))).sum

/-- Example bloom for the C2 theorem: count 10, 7 of which were harvested. -/
def bloomC2 : BloomEntry :=
  { id := "b2", date := 0, location := "N11A", variety := "Red", count := 10,
    maturityPeriodDays := 26 }

/-- Harvest of 7 fruits from `bloomC2`. -/
def harvestC2 : HarvestEntry :=
  { id := "h2", harvestDate := 26, bloomEntryId := "b2", harvestedCount := 7 }

/-- C2: the dashboard counter diverges from the yield-ledger sum: with one
bloom of count 10 and 7 fruits harvested, the code computes 10 (it never
subtracts harvests, and `getHarvestEntries` is not even imported in
`index.tsx`) while the spec's ledger sum is 3. -/
theorem totalActiveBlooms_ignores_harvests :
    totalActiveBlooms [bloomC2] [] = 10
    ∧ specTotalActiveBlooms [bloomC2] [] [harvestC2] = 3
    ∧ totalActiveBlooms [bloomC2] [] ≠ specTotalActiveBlooms [bloomC2] [] [harvestC2] := by
  decide

/-- `readyToHarvestToday` as computed by `loadDashboardData` in `index.tsx`
lines 40-43: the number of blooms whose expected harvest date is today, with
no filter on remaining count. -/
def readyToHarvestToday (bloomEntries : List BloomEntry) (today : Int) : Nat :=
  (bloomEntries.filter
    (fun bloom => formatDate (addDays bloom.date bloom.maturityPeriodDays) == today)).length

/-- Follows the spec's words (§4.5): count of blooms where
`expectedDate == today`, over all blooms. -/
def specReadyToHarvestToday (bloomEntries : List BloomEntry) (today : Int) : Nat :=
  bloomEntries.countP (fun b => b.date + b.maturityPeriodDays == today)

/-- C8: the dashboard's ready-today counter counts exactly the blooms whose
expected harvest date equals today, independently of abortions and harvests;
in particular a bloom with zero clamped remaining whose expected date is
today still increments it. -/
theorem readyToHarvestToday_counts_all_blooms (bloomEntries : List BloomEntry) (today : Int)
    (abortionEntries : List AbortionEntry) (harvestEntries : List HarvestEntry) (b : BloomEntry) :
    readyToHarvestToday bloomEntries today = specReadyToHarvestToday bloomEntries today
    ∧ (formatDate (addDays b.date b.maturityPeriodDays) = today →
        max 0 (b.count - totalAborted abortionEntries b.id - totalHarvested harvestEntries b.id) = 0 →
        readyToHarvestToday (b :: bloomEntries) today = readyToHarvestToday bloomEntries today + 1) := by
  constructor
  · rw [readyToHarvestToday, specReadyToHarvestToday, List.countP_eq_length_filter]
    rfl
  · intro hdate _
    have hp : (formatDate (addDays b.date b.maturityPeriodDays) == today) = true := by
      simpa using hdate
    simp [readyToHarvestToday, List.filter_cons, hp]

/-- C8 witness: a fully harvested bloom due today still counts: with
`bloomC2` (expected date 26, remaining within clamp 0 after a harvest of 10)
the counter over `[bloomC2]` exceeds the counter over `[]` by one. -/
theorem readyToHarvestToday_witness :
    readyToHarvestToday [bloomC2] 26 = specReadyToHarvestToday [bloomC2] 26
    ∧ readyToHarvestToday (bloomC2 :: []) 26 = readyToHarvestToday [] 26 + 1 :=
  ⟨(readyToHarvestToday_counts_all_blooms [bloomC2] 26 []
      [{ id := "hx", harvestDate := 26, bloomEntryId := "b2", harvestedCount := 10 }] bloomC2).1,
   (readyToHarvestToday_counts_all_blooms [] 26 []
      [{ id := "hx", harvestDate := 26, bloomEntryId := "b2", harvestedCount := 10 }] bloomC2).2
     (by decide) (by decide)⟩

/-- The `{ total, aborted }` records accumulated in the `Map`s of
`loadAnalyticsData` (`src/app/(tabs)/analytics.tsx`). -/
structure GroupStats where
  total : Int
  aborted : Int
deriving DecidableEq, Repr

/-- `Map.get`: first binding of the key in the insertion-ordered list. -/
def mapGet (m : List (String × GroupStats)) (k : String) : Option GroupStats :=
  (m.find? (fun p => p.1 == k)).map (fun p => p.2)

/-- `Map.set`: update the existing binding in place, else append. -/
def mapSet (m : List (String × GroupStats)) (k : String) (v : GroupStats) :
    List (String × GroupStats) :=
  if m.any (fun p => p.1 == k) then
    m.map (fun p => if p.1 == k then (k, v) else p)
  else m ++ [(k, v)]

/-- One step of the bloom loop of `loadAnalyticsData` (lines 86-90 and
117-121): add a bloom's count to its group's total. -/
def statsAddBloom (m : List (String × GroupStats)) (k : String) (count : Int) :
    List (String × GroupStats) :=
  let current := (mapGet m k).getD { total := 0, aborted := 0 }
  mapSet m k { total := current.total + count, aborted := current.aborted }

/-- One step of the abortion loop of `loadAnalyticsData` (lines 92-99 and
123-130): add an abortion's count to its group's aborted total. -/
def statsAddAborted (m : List (String × GroupStats)) (k : String) (c : Int) :
    List (String × GroupStats) :=
  let current := (mapGet m k).getD { total := 0, aborted := 0 }
  mapSet m k { total := current.total, aborted := current.aborted + c }

/-- The two grouping blocks of `loadAnalyticsData` differ only in the group
key (`bloom.location` vs `bloom.variety`); this is that common shape.  An
abortion whose `bloomEntryId` matches no bloom is skipped (`if (bloom)`). -/
def groupAbortionStats (key : BloomEntry → String) (bloomEntries : List BloomEntry)
    (abortionEntries : List AbortionEntry) : List (String × GroupStats) :=
  let m := bloomEntries.foldl (fun m bloom => statsAddBloom m (key bloom) bloom.count) []
  abortionEntries.foldl (fun m abortion =>
    match bloomEntries.find? (fun b => b.id == abortion.bloomEntryId) with
    | some bloom => statsAddAborted m (key bloom) abortion.abortedCount
    | none => m) m

/-- `locationStats` from `analytics.tsx` lines 84-99. -/
def locationStats (bloomEntries : List BloomEntry) (abortionEntries : List AbortionEntry) :
    List (String × GroupStats) :=
  groupAbortionStats (fun b => b.location) bloomEntries abortionEntries

/-- `varietyStats` from `analytics.tsx` lines 115-130. -/
def varietyStats (bloomEntries : List BloomEntry) (abortionEntries : List AbortionEntry) :
    List (String × GroupStats) :=
  groupAbortionStats (fun b => b.variety) bloomEntries abortionEntries

/-- The rate expression `stats.total > 0 ? (stats.aborted / stats.total) * 100 : 0`
(`analytics.tsx` lines 104 and 135), with JS numbers embedded as rationals. -/
def rateOf (s : GroupStats) : ℚ :=
  if 0 < s.total then ((s.aborted : ℚ) / (s.total : ℚ)) * 100 else 0

/-- `AbortionRateData` from `analytics.tsx` lines 30-35. -/
structure AbortionRateData where
  location : String
  rate : ℚ
  total : Int
  aborted : Int
deriving DecidableEq, Repr

/-- `ChartData` from `analytics.tsx` lines 24-28 (the numeric `y` only;
labels are presentation). -/
structure ChartData where
  x : String
  y : ℚ
deriving DecidableEq, Repr

/-- Descending-rate order for `.sort((a, b) => b.rate - a.rate)`. -/
def rateDescLE (a b : AbortionRateData) : Bool := decide (b.rate ≤ a.rate)

/-- Descending order for `.sort((a, b) => b.y - a.y)`. -/
def chartDescLE (a b : ChartData) : Bool := decide (b.y ≤ a.y)

/-- `locationRates` before `slice(0, 10)` (`analytics.tsx` lines 101-110):
map the stats to rate records, drop zero-total groups, sort descending. -/
def locationRatesRanked (bloomEntries : List BloomEntry)
    (abortionEntries : List AbortionEntry) : List AbortionRateData :=
  (((locationStats bloomEntries abortionEntries).map (fun p =>
    { location := p.1, rate := rateOf p.2, total := p.2.total,
      aborted := p.2.aborted : AbortionRateData })).filter
    (fun r => decide (0 < r.total))).mergeSort rateDescLE

/-- `locationRates` as set into state: the ranked list truncated to 10. -/
def locationRates (bloomEntries : List BloomEntry)
    (abortionEntries : List AbortionEntry) : List AbortionRateData :=
  (locationRatesRanked bloomEntries abortionEntries).take 10

/-- `varietyRates` before `slice(0, 10)` (`analytics.tsx` lines 132-139):
note the filter keeps `item.y > 0`, i.e. positive RATE, not positive
total. -/
def varietyRatesRanked (bloomEntries : List BloomEntry)
    (abortionEntries : List AbortionEntry) : List ChartData :=
  (((varietyStats bloomEntries abortionEntries).map (fun p =>
    { x := p.1, y := rateOf p.2 : ChartData })).filter
    (fun c => decide (0 < c.y))).mergeSort chartDescLE

/-- `varietyRates` as set into state: the ranked list truncated to 10. -/
def varietyRates (bloomEntries : List BloomEntry)
    (abortionEntries : List AbortionEntry) : List ChartData :=
  (varietyRatesRanked bloomEntries abortionEntries).take 10

theorem rateDescLE_trans (a b c : AbortionRateData) (hab : rateDescLE a b = true)
    (hbc : rateDescLE b c = true) : rateDescLE a c = true := by
  simp only [rateDescLE, decide_eq_true_eq] at *
  exact le_trans hbc hab

theorem rateDescLE_total (a b : AbortionRateData) :
    (rateDescLE a b || rateDescLE b a) = true := by
  simp only [rateDescLE, Bool.or_eq_true, decide_eq_true_eq]
  exact le_total b.rate a.rate

theorem chartDescLE_trans (a b c : ChartData) (hab : chartDescLE a b = true)
    (hbc : chartDescLE b c = true) : chartDescLE a c = true := by
  simp only [chartDescLE, decide_eq_true_eq] at *
  exact le_trans hbc hab

theorem chartDescLE_total (a b : ChartData) :
    (chartDescLE a b || chartDescLE b a) = true := by
  simp only [chartDescLE, Bool.or_eq_true, decide_eq_true_eq]
  exact le_total b.y a.y

/-- Example bloom for the C4 theorems: 10 Red flowers at `N11A`, never
aborted, so its variety group has total 10 and rate 0. -/
def bloomC4 : BloomEntry :=
  { id := "b4", date := 0, location := "N11A", variety := "Red", count := 10,
    maturityPeriodDays := 26 }

/-- C4 counterexample: the Red variety group has total bloomed 10 > 0 yet is
absent from the by-variety output, because `analytics.tsx` line 137 filters
on `item.y > 0` (positive rate) instead of positive total; the by-location
view keeps the same zero-rate group. -/
theorem variety_zero_rate_group_dropped :
    varietyStats [bloomC4] [] = [("Red", { total := 10, aborted := 0 })]
    ∧ (0 : Int) < ({ total := 10, aborted := 0 } : GroupStats).total
    ∧ varietyRates [bloomC4] [] = []
    ∧ locationRates [bloomC4] []
        = [{ location := "N11A", rate := 0, total := 10, aborted := 0 }] := by
  have hv : varietyStats [bloomC4] [] = [("Red", { total := 10, aborted := 0 })] := by decide
  have hl : locationStats [bloomC4] [] = [("N11A", { total := 10, aborted := 0 })] := by decide
  have hr : rateOf { total := 10, aborted := 0 } = 0 := by norm_num [rateOf]
  refine ⟨hv, by decide, ?_, ?_⟩
  · rw [varietyRates, varietyRatesRanked, hv]
    simp [hr]
  · rw [locationRates, locationRatesRanked, hl]
    simp [hr, List.filter]

/-- C4 (amended): the ranked by-location list contains exactly the groups
with positive total, while the ranked by-variety list contains exactly the
groups with positive rate (so a variety that bloomed but was never aborted
is dropped); both final outputs are sorted descending by rate and truncated
to at most 10 entries. -/
theorem analytics_group_filters (bloomEntries : List BloomEntry)
    (abortionEntries : List AbortionEntry) :
    (∀ r : AbortionRateData, r ∈ locationRatesRanked bloomEntries abortionEntries ↔
      (r ∈ (locationStats bloomEntries abortionEntries).map (fun p =>
          ({ location := p.1, rate := rateOf p.2, total := p.2.total,
             aborted := p.2.aborted } : AbortionRateData))
        ∧ 0 < r.total))
    ∧ (∀ c : ChartData, c ∈ varietyRatesRanked bloomEntries abortionEntries ↔
      (c ∈ (varietyStats bloomEntries abortionEntries).map (fun p =>
          ({ x := p.1, y := rateOf p.2 } : ChartData))
        ∧ 0 < c.y))
    ∧ List.Pairwise (fun a b : AbortionRateData => b.rate ≤ a.rate)
        (locationRates bloomEntries abortionEntries)
    ∧ List.Pairwise (fun a b : ChartData => b.y ≤ a.y)
        (varietyRates bloomEntries abortionEntries)
    ∧ (locationRates bloomEntries abortionEntries).length ≤ 10
    ∧ (varietyRates bloomEntries abortionEntries).length ≤ 10 := by
  refine ⟨?_, ?_, ?_, ?_, ?_, ?_⟩
  · intro r
    rw [locationRatesRanked, List.mem_mergeSort, List.mem_filter, decide_eq_true_eq]
  · intro c
    rw [varietyRatesRanked, List.mem_mergeSort, List.mem_filter, decide_eq_true_eq]
  · have h := @List.sorted_mergeSort _ rateDescLE rateDescLE_trans rateDescLE_total
      (((locationStats bloomEntries abortionEntries).map (fun p =>
        ({ location := p.1, rate := rateOf p.2, total := p.2.total,
           aborted := p.2.aborted } : AbortionRateData))).filter
        (fun r => decide (0 < r.total)))
    refine List.Pairwise.sublist (List.take_sublist 10 _) ?_
    refine List.Pairwise.imp ?_ h
    intro a b hab
    simpa [rateDescLE] using hab
  · have h := @List.sorted_mergeSort _ chartDescLE chartDescLE_trans chartDescLE_total
      (((varietyStats bloomEntries abortionEntries).map (fun p =>
        ({ x := p.1, y := rateOf p.2 } : ChartData))).filter
        (fun c => decide (0 < c.y)))
    refine List.Pairwise.sublist (List.take_sublist 10 _) ?_
    refine List.Pairwise.imp ?_ h
    intro a b hab
    simpa [chartDescLE] using hab
  · exact List.length_take_le 10 _
  · exact List.length_take_le 10 _

theorem rateOf_nonneg (s : GroupStats) (h : 0 ≤ s.aborted) : 0 ≤ rateOf s := by
  by_cases ht : 0 < s.total
  · rw [rateOf, if_pos ht]
    have ha : (0 : ℚ) ≤ (s.aborted : ℚ) := by exact_mod_cast h
    have ht' : (0 : ℚ) ≤ (s.total : ℚ) := by exact_mod_cast ht.le
    exact mul_nonneg (div_nonneg ha ht') (by norm_num)
  · rw [rateOf, if_neg ht]

theorem rateOf_total_zero (s : GroupStats) (h : s.total = 0) : rateOf s = 0 := by
  rw [rateOf, if_neg (by omega)]

theorem rateOf_le_100 (s : GroupStats) (h : s.aborted ≤ s.total) : rateOf s ≤ 100 := by
  by_cases ht : 0 < s.total
  · rw [rateOf, if_pos ht]
    have ha : (s.aborted : ℚ) ≤ (s.total : ℚ) := by exact_mod_cast h
    have ht' : (0 : ℚ) < (s.total : ℚ) := by exact_mod_cast ht
    have h1 : (s.aborted : ℚ) / (s.total : ℚ) ≤ 1 := (div_le_one ht').mpr ha
    calc (s.aborted : ℚ) / (s.total : ℚ) * 100 ≤ 1 * 100 := by nlinarith
    _ = 100 := by norm_num
  · rw [rateOf, if_neg ht]
    norm_num

theorem mem_mapSet (m : List (String × GroupStats)) (k : String) (v : GroupStats)
    (p : String × GroupStats) (hp : p ∈ mapSet m k v) : p = (k, v) ∨ p ∈ m := by
  rw [mapSet] at hp
  split at hp
  · obtain ⟨q, hq, hpq⟩ := List.mem_map.mp hp
    split at hpq
    · exact Or.inl hpq.symm
    · exact Or.inr (hpq ▸ hq)
  · rcases List.mem_append.mp hp with h | h
    · exact Or.inr h
    · exact Or.inl (List.mem_singleton.mp h)

theorem getD_aborted_nonneg (m : List (String × GroupStats)) (k : String)
    (h : ∀ p ∈ m, 0 ≤ p.2.aborted) :
    0 ≤ ((mapGet m k).getD { total := 0, aborted := 0 }).aborted := by
  rw [mapGet]
  cases hf : m.find? (fun p => p.1 == k) with
  | none => simp
  | some q => exact h q (List.mem_of_find?_eq_some hf)

theorem bloom_fold_aborted_nonneg (key : BloomEntry → String) (l : List BloomEntry)
    (m : List (String × GroupStats)) (h : ∀ p ∈ m, 0 ≤ p.2.aborted) :
    ∀ p ∈ l.foldl (fun m bloom => statsAddBloom m (key bloom) bloom.count) m,
      0 ≤ p.2.aborted := by
  induction l generalizing m with
  | nil => exact h
  | cons b t ih =>
    rw [List.foldl_cons]
    refine ih _ ?_
    intro q hq
    rcases mem_mapSet _ _ _ _ hq with hqe | hqm
    · rw [hqe]
      exact getD_aborted_nonneg m (key b) h
    · exact h q hqm

theorem abort_fold_aborted_nonneg (key : BloomEntry → String)
    (bloomEntries : List BloomEntry) :
    ∀ (l : List AbortionEntry) (m : List (String × GroupStats)),
      (∀ a ∈ l, 0 ≤ a.abortedCount) → (∀ p ∈ m, 0 ≤ p.2.aborted) →
      ∀ p ∈ l.foldl (fun m abortion =>
          match bloomEntries.find? (fun b => b.id == abortion.bloomEntryId) with
          | some bloom => statsAddAborted m (key bloom) abortion.abortedCount
          | none => m) m,
        0 ≤ p.2.aborted := by
  intro l
  induction l with
  | nil => exact fun m _ h => h
  | cons a t ih =>
    intro m hl h
    rw [List.foldl_cons]
    refine ih _ (fun x hx => hl x (List.mem_cons_of_mem a hx)) ?_
    cases hf : bloomEntries.find? (fun b => b.id == a.bloomEntryId) with
    | none => simpa [hf] using h
    | some bloom =>
      simp only [hf]
      intro q hq
      rcases mem_mapSet _ _ _ _ hq with hqe | hqm
      · rw [hqe]
        have h1 := getD_aborted_nonneg m (key bloom) h
        have h2 : 0 ≤ a.abortedCount := hl a (List.mem_cons_self a t)
        dsimp only
        omega
      · exact h q hqm

theorem groupStats_aborted_nonneg (key : BloomEntry → String)
    (bloomEntries : List BloomEntry) (abortionEntries : List AbortionEntry)
    (ha : ∀ a ∈ abortionEntries, 0 ≤ a.abortedCount) :
    ∀ p ∈ groupAbortionStats key bloomEntries abortionEntries, 0 ≤ p.2.aborted := by
  rw [groupAbortionStats]
  exact abort_fold_aborted_nonneg key bloomEntries abortionEntries _ ha
    (bloom_fold_aborted_nonneg key bloomEntries [] (by simp))

/-- Example bloom for the C5 theorems: 10 flowers at `N12A`. -/
def bloomC5 : BloomEntry :=
  { id := "b5", date := 0, location := "N12A", variety := "White", count := 10,
    maturityPeriodDays := 26 }

/-- Over-abortion of 20 flowers against `bloomC5`'s count of 10. -/
def abortionC5 : AbortionEntry :=
  { id := "a5", abortionDate := 1, bloomEntryId := "b5", abortedCount := 20 }

/-- C5 counterexample: with over-abortion data (20 aborted of 10 bloomed)
the by-location aggregation holds the group `("N12A", {total 10, aborted 20})`
and its computed rate is `20/10*100 = 200`, outside `[0,100]`: the code never
clamps the rate. -/
theorem rate_exceeds_100_on_overabortion :
    ("N12A", ({ total := 10, aborted := 20 } : GroupStats)) ∈ locationStats [bloomC5] [abortionC5]
    ∧ rateOf { total := 10, aborted := 20 } = 200
    ∧ ¬(rateOf { total := 10, aborted := 20 } ≤ 100) := by
  refine ⟨by decide, ?_, ?_⟩ <;> norm_num [rateOf]

/-- C5 (amended): for every group of either aggregation, given non-negative
aborted counts in the input, the computed rate is ≥ 0; it is 0 whenever the
group's total is 0 (no division by zero occurs, the guard returns 0); and it
is ≤ 100 whenever the group's aborted total does not exceed its bloomed
total — but over-abortion data drives it above 100. -/
theorem abortion_rate_bounds (bloomEntries : List BloomEntry)
    (abortionEntries : List AbortionEntry)
    (ha : ∀ a ∈ abortionEntries, 0 ≤ a.abortedCount) :
    (∀ p ∈ locationStats bloomEntries abortionEntries,
      0 ≤ rateOf p.2 ∧ (p.2.total = 0 → rateOf p.2 = 0)
        ∧ (p.2.aborted ≤ p.2.total → rateOf p.2 ≤ 100))
    ∧ (∀ p ∈ varietyStats bloomEntries abortionEntries,
      0 ≤ rateOf p.2 ∧ (p.2.total = 0 → rateOf p.2 = 0)
        ∧ (p.2.aborted ≤ p.2.total → rateOf p.2 ≤ 100)) := by
  constructor
  · intro p hp
    have hab := groupStats_aborted_nonneg (fun b => b.location) bloomEntries abortionEntries ha p hp
    exact ⟨rateOf_nonneg p.2 hab, rateOf_total_zero p.2, rateOf_le_100 p.2⟩
  · intro p hp
    have hab := groupStats_aborted_nonneg (fun b => b.variety) bloomEntries abortionEntries ha p hp
    exact ⟨rateOf_nonneg p.2 hab, rateOf_total_zero p.2, rateOf_le_100 p.2⟩

/-- C5 witness: the bounds instantiated on a concrete well-formed history
(10 bloomed, 3 aborted at location `N12A`). -/
theorem abortion_rate_bounds_witness :
    0 ≤ rateOf (("N12A", ({ total := 10, aborted := 3 } : GroupStats)) : String × GroupStats).2
    ∧ ((("N12A", ({ total := 10, aborted := 3 } : GroupStats)) : String × GroupStats).2.total = 0 →
        rateOf (("N12A", ({ total := 10, aborted := 3 } : GroupStats)) : String × GroupStats).2 = 0)
    ∧ ((("N12A", ({ total := 10, aborted := 3 } : GroupStats)) : String × GroupStats).2.aborted ≤
          (("N12A", ({ total := 10, aborted := 3 } : GroupStats)) : String × GroupStats).2.total →
        rateOf (("N12A", ({ total := 10, aborted := 3 } : GroupStats)) : String × GroupStats).2 ≤ 100) :=
  (abortion_rate_bounds [bloomC5]
      [{ id := "a6", abortionDate := 1, bloomEntryId := "b5", abortedCount := 3 }]
      (by decide)).1
    ("N12A", { total := 10, aborted := 3 }) (by decide)

/-- C9: an abortion whose `bloomEntryId` matches no bloom changes nothing in
either aggregation: all grouped totals and the final rate lists are the same
with and without the orphaned entry (it is silently skipped, and the
aggregation is total, so it completes without error). -/
theorem orphan_abortion_ignored (bloomEntries : List BloomEntry)
    (abortionEntries : List AbortionEntry) (orphan : AbortionEntry)
    (h : ∀ b ∈ bloomEntries, b.id ≠ orphan.bloomEntryId) :
    locationStats bloomEntries (abortionEntries ++ [orphan])
        = locationStats bloomEntries abortionEntries
    ∧ varietyStats bloomEntries (abortionEntries ++ [orphan])
        = varietyStats bloomEntries abortionEntries
    ∧ locationRates bloomEntries (abortionEntries ++ [orphan])
        = locationRates bloomEntries abortionEntries
    ∧ varietyRates bloomEntries (abortionEntries ++ [orphan])
        = varietyRates bloomEntries abortionEntries := by
  have hfind : bloomEntries.find? (fun b => b.id == orphan.bloomEntryId) = none := by
    rw [List.find?_eq_none]
    intro b hb
    simpa using h b hb
  have hkey : ∀ key : BloomEntry → String,
      groupAbortionStats key bloomEntries (abortionEntries ++ [orphan])
        = groupAbortionStats key bloomEntries abortionEntries := by
    intro key
    rw [groupAbortionStats, groupAbortionStats, List.foldl_append]
    simp [hfind]
  have hloc := hkey (fun b => b.location)
  have hvar := hkey (fun b => b.variety)
  refine ⟨hloc, hvar, ?_, ?_⟩
  · rw [locationRates, locationRates, locationRatesRanked, locationRatesRanked,
      locationStats, locationStats, hloc]
  · rw [varietyRates, varietyRates, varietyRatesRanked, varietyRatesRanked,
      varietyStats, varietyStats, hvar]

/-- Orphaned abortion for the C9 witness: bloom id `"nope"` is unknown. -/
def orphanC9 : AbortionEntry :=
  { id := "ax", abortionDate := 1, bloomEntryId := "nope", abortedCount := 5 }

/-- C9 witness: a concrete orphaned abortion leaves the aggregations over
`[bloomC5]` untouched. -/
theorem orphan_abortion_ignored_witness :
    locationStats [bloomC5] ([] ++ [orphanC9]) = locationStats [bloomC5] []
    ∧ varietyStats [bloomC5] ([] ++ [orphanC9]) = varietyStats [bloomC5] []
    ∧ locationRates [bloomC5] ([] ++ [orphanC9]) = locationRates [bloomC5] []
    ∧ varietyRates [bloomC5] ([] ++ [orphanC9]) = varietyRates [bloomC5] [] :=
  orphan_abortion_ignored [bloomC5] [] orphanC9 (by decide)

/-- `FarmLocation` from `src/types/farm.ts`. -/
structure FarmLocation where
  id : String
  type : String
  zone : String
  name : String
deriving DecidableEq, Repr

/-- `generateGreenhouseLocations` from `src/utils/farmLocations.ts` lines
4-28: 2 zones × 4 greenhouses × 3 rows × 12 poles (A-L). -/
def generateGreenhouseLocations : List FarmLocation :=
  (["North", "South"]).flatMap (fun zone =>
    ((List.range' 1 4).flatMap (fun gh =>
      ((List.range' 1 3).flatMap (fun row =>
        ((List.range 12).map (fun pole =>
          let poleLetter := String.mk [Char.ofNat (65 + pole)]
          { id := zone.take 1 ++ toString gh ++ toString row ++ poleLetter
            type := "Greenhouse"
            zone := zone
            name := zone ++ " GH" ++ toString gh ++ " Row" ++ toString row
              ++ " Pole" ++ poleLetter })))))))

/-- `generateTrellisLocations` from `farmLocations.ts` lines 31-53:
2 zones × 4 trellises × 10 sections (A-J). -/
def generateTrellisLocations : List FarmLocation :=
  (["North", "South"]).flatMap (fun zone =>
    ((List.range' 1 4).flatMap (fun trellis =>
      ((List.range 10).map (fun sec =>
        let sectionLetter := String.mk [Char.ofNat (65 + sec)]
        { id := zone.take 1 ++ "T" ++ toString trellis ++ sectionLetter
          type := "Trellis"
          zone := zone
          name := zone ++ " Trellis " ++ toString trellis ++ " Section "
            ++ sectionLetter })))))

/-- `generateDoublePoleLocations` from `farmLocations.ts` lines 56-78:
2 zones × 2 positions (Upper/Lower) × 6 poles. -/
def generateDoublePoleLocations : List FarmLocation :=
  (["North", "South"]).flatMap (fun zone =>
    ((["Upper", "Lower"]).flatMap (fun position =>
      ((List.range' 1 6).map (fun pole =>
        { id := zone.take 1 ++ "DP" ++ position.take 1 ++ toString pole
          type := "Double Pole"
          zone := zone
          name := zone ++ " Double Pole " ++ position ++ " " ++ toString pole })))))

/-- `getAllFarmLocations` from `farmLocations.ts` lines 80-86, rebuilt fresh
on every call from the three pure generators. -/
def getAllFarmLocations : List FarmLocation :=
  generateGreenhouseLocations ++ generateTrellisLocations ++ generateDoublePoleLocations

/-- Radix encoding of a string with a leading sentinel digit; mapping the
identifiers through it lets distinctness be decided over machine naturals. -/
def keyOf (s : String) : Nat := s.data.foldl (fun n c => n * 256 + c.toNat) 1

set_option maxRecDepth 100000

set_option maxHeartbeats 4000000

/-- C10: the catalog has exactly 288 greenhouse, 80 trellis and 24
double-pole locations, 392 in total, and all 392 identifiers are pairwise
distinct.  (Determinism is immediate: `getAllFarmLocations` is a closed pure
definition.) -/
theorem farm_catalog_size_and_unique_ids :
    generateGreenhouseLocations.length = 288
    ∧ generateTrellisLocations.length = 80
    ∧ generateDoublePoleLocations.length = 24
    ∧ getAllFarmLocations.length = 392
    ∧ (getAllFarmLocations.map (fun l => l.id)).Nodup := by
  refine ⟨by decide, by decide, by decide, by decide, ?_⟩
  have h : ((getAllFarmLocations.map (fun l => l.id)).map keyOf).Nodup := by decide
  exact List.Nodup.of_map keyOf h
